import Mathlib

/-!
Verification of the Street Coverage Engine of `waco_streets_analyzer.py`
(class `WacoStreetsAnalyzer`).

Shallow embedding conventions:
* shapely coordinates are embedded as exact rationals (`ℚ × ℚ`);
* the comparison `line.distance(seg) <= snap_distance` is embedded as
  `squared distance ≤ snap_distance ^ 2` — for nonnegative tolerances the two
  comparisons are equivalent, and squared distances of segments with rational
  endpoints are rational, hence exactly computable;
* `self.traveled_segments` (a Python `set` of strings) is a `Finset String`;
* a `GeoDataFrame` of rows is a `List` of row structures;
* `None` fields are `Option`.
-/

namespace EveryStreet

/-- A coordinate pair, as in a shapely geometry. -/
abbrev Point : Type := ℚ × ℚ

/-- An axis-aligned bounding box `(minx, miny, maxx, maxy)`, as returned by
the shapely bounds and stored in the rtree index. -/
structure BBox where
  minx : ℚ
  miny : ℚ
  maxx : ℚ
  maxy : ℚ
deriving DecidableEq, Repr

/-- Bounds of a geometry given by its coordinate list (min/max of each axis).
The empty list never occurs in the code (geometries have ≥ 1 point). -/
def boundsOf (coords : List Point) : BBox :=
  match coords with
  | [] => ⟨0, 0, 0, 0⟩
  | p :: ps =>
      ps.foldl
        (fun b q => ⟨min b.minx q.1, min b.miny q.2, max b.maxx q.1, max b.maxy q.2⟩)
        ⟨p.1, p.2, p.1, p.2⟩

/-- Closed-box intersection test, the semantics of
`rtree.index.Index.intersection`: boxes that merely touch do intersect. -/
def BBox.intersects (a b : BBox) : Bool :=
  decide (a.minx ≤ b.maxx ∧ b.minx ≤ a.maxx ∧ a.miny ≤ b.maxy ∧ b.miny ≤ a.maxy)

/-- Squared Euclidean distance between two points. -/
def sqDistPP (p q : Point) : ℚ :=
  (p.1 - q.1) ^ 2 + (p.2 - q.2) ^ 2

/-- Squared distance from point `p` to the segment `[a, b]` (orthogonal
projection onto the segment line, parameter clamped to `[0, 1]`;
degenerate segments fall back to point distance). -/
def sqDistPointSeg (p a b : Point) : ℚ :=
  let dx := b.1 - a.1
  let dy := b.2 - a.2
  let dd := dx ^ 2 + dy ^ 2
  if dd = 0 then sqDistPP p a
  else
    let t := ((p.1 - a.1) * dx + (p.2 - a.2) * dy) / dd
    let tc := max 0 (min 1 t)
    sqDistPP p (a.1 + tc * dx, a.2 + tc * dy)

/-- Orientation cross product of `r` relative to the directed segment `p → q`. -/
def direction (p q r : Point) : ℚ :=
  (q.1 - p.1) * (r.2 - p.2) - (q.2 - p.2) * (r.1 - p.1)

/-- Whether a point `r`, known to be collinear with `[p, q]`, lies on `[p, q]`. -/
def onSegment (p q r : Point) : Bool :=
  decide (min p.1 q.1 ≤ r.1 ∧ r.1 ≤ max p.1 q.1 ∧
          min p.2 q.2 ≤ r.2 ∧ r.2 ≤ max p.2 q.2)

/-- Exact segment-intersection test (standard orientation algorithm,
collinear-overlap cases included). -/
def segsIntersect (a b c d : Point) : Bool :=
  let d1 := direction c d a
  let d2 := direction c d b
  let d3 := direction a b c
  let d4 := direction a b d
  if ((0 < d1 ∧ d2 < 0) ∨ (d1 < 0 ∧ 0 < d2)) ∧
     ((0 < d3 ∧ d4 < 0) ∨ (d3 < 0 ∧ 0 < d4)) then true
  else if d1 = 0 ∧ onSegment c d a then true
  else if d2 = 0 ∧ onSegment c d b then true
  else if d3 = 0 ∧ onSegment a b c then true
  else if d4 = 0 ∧ onSegment a b d then true
  else false

/-- Squared distance between segments `[a, b]` and `[c, d]`: zero when they
intersect, otherwise the minimum over the four endpoint-to-segment distances.
This is the true geometric (shapely) distance, squared. -/
def sqDistSegSeg (a b c d : Point) : ℚ :=
  if segsIntersect a b c d then 0
  else
    min (min (sqDistPointSeg a c d) (sqDistPointSeg b c d))
        (min (sqDistPointSeg c a b) (sqDistPointSeg d a b))

/-- Squared distance between the polyline `coords` and the segment `[p, q]`:
minimum over the polyline edges; this is `line.distance(segment)` squared. -/
def sqDistLineSeg (coords : List Point) (p q : Point) : ℚ :=
  match (coords.zip coords.tail).map (fun e => sqDistSegSeg e.1 e.2 p q) with
  | [] => 0
  | d :: ds => ds.foldl min d

/-- One row of `segments_gdf` as produced by `_process_linestring`
(keys `geometry`, `street_id`, `segment_id`); `geometry` is the two-point
LineString `[p, q]`.  The `traveled` column does not exist at construction
time (`none`): it is added in place only by `get_progress_geojson`. -/
structure SegRecord where
  p : Point
  q : Point
  street_id : String
  segment_id : String
  traveled : Option Bool := none
deriving DecidableEq, Repr

/-- Street/route geometry, the tagged variants of the GeoJSON and shapely
geometries the analyzer distinguishes with `isinstance` /
`feature["geometry"]["type"]` checks. -/
inductive Geometry where
  | lineString (coords : List Point)
  | multiLineString (parts : List (List Point))
  | unsupported
deriving DecidableEq, Repr

/-- One row of `streets_gdf`. -/
structure Street where
  street_id : String
  geometry : Geometry
deriving DecidableEq, Repr

/-- A GeoJSON route feature handed to `update_progress`. -/
structure Feature where
  geometry : Geometry
deriving DecidableEq, Repr

/-- The validity filter of `update_progress` (lines 156-161): geometry type is
`LineString` and it has more than one coordinate. -/
def validFeature (f : Feature) : Bool :=
  match f.geometry with
  | .lineString coords => decide (1 < coords.length)
  | _ => false

/-- The mutable state of a `WacoStreetsAnalyzer` instance:
`streets_gdf`, `segments_gdf` (each `None` until `load_data` ran) and
`traveled_segments`.  `snap_distance_sq` is the square of `snap_distance`
(`0.00001` in `__init__`). -/
structure EngineState where
  streets_gdf : Option (List Street)
  segments_gdf : Option (List SegRecord)
  traveled_segments : Finset String
  snap_distance_sq : ℚ
deriving DecidableEq

/-- The squared value of `snap_distance = 0.00001` from `__init__`. -/
def snapDistanceSq : ℚ := (1 / 100000) ^ 2

/-- Bounds of the two-point geometry of a segment row. -/
def segBounds (s : SegRecord) : BBox := boundsOf [s.p, s.q]

/-- The matching loop for one route (lines 178-183 of `update_progress`):
query the rtree with the route bounds — i.e. keep the segments whose stored
bounding box intersects `line.bounds` — then add to `traveled` the
`segment_id` of every candidate whose true distance to the line is at most
`snap_distance`. -/
def matchRoute (segs : List SegRecord) (tolSq : ℚ) (coords : List Point)
    (traveled : Finset String) : Finset String :=
  let possible := segs.filter (fun s => (boundsOf coords).intersects (segBounds s))
  possible.foldl
    (fun acc s =>
      if sqDistLineSeg coords s.p s.q ≤ tolSq then insert s.segment_id acc else acc)
    traveled

/-- The set of segment ids one route adds: candidates surviving both the
bounding-box pre-filter and the exact distance test. -/
def routeSet (segs : List SegRecord) (tolSq : ℚ) (coords : List Point) : Finset String :=
  (((segs.filter (fun s => (boundsOf coords).intersects (segBounds s))).filter
      (fun s => decide (sqDistLineSeg coords s.p s.q ≤ tolSq))).map
    (fun s => s.segment_id)).toFinset

/-- The contribution of one (already validated) feature inside the route loop:
only `LineString` rows are matched (`isinstance` check at line 174). -/
def featSet (segs : List SegRecord) (tolSq : ℚ) (f : Feature) : Finset String :=
  match f.geometry with
  | .lineString coords => routeSet segs tolSq coords
  | _ => ∅

/-- Embeds `update_progress(routes)` (lines 146-196), error-free execution:
returns unchanged if `segments_gdf is None`, if the batch is empty, or if no
feature passes the validity filter; otherwise the matches of every valid route are
added to `traveled_segments`. -/
def updateProgress (st : EngineState) (routes : List Feature) : EngineState :=
  match st.segments_gdf with
  | none => st
  | some segs =>
      if routes.isEmpty then st
      else
        let valid := routes.filter validFeature
        if valid.isEmpty then st
        else
          let traveled :=
            valid.foldl
              (fun acc f =>
                match f.geometry with
                | .lineString coords => matchRoute segs st.snap_distance_sq coords acc
                | _ => acc)
              st.traveled_segments
          { st with traveled_segments := traveled }

/-! ### Batch execution with per-route failures (`update_progress`, lines 167-198)

The `try` block of `update_progress` wraps the whole `for` loop over routes;
the matching `except` (line 197) logs and swallows any exception.  A route
whose processing raises (bad geometry, reprojection failure, …) is modelled as
the outcome `raises`; the loop then stops at that route, keeping everything
matched so far, and the exception does not escape `update_progress`. -/

/-- Outcome of attempting to process one route inside the loop: either its
`LineString` coordinates, or a raised exception. -/
inductive RouteAttempt where
  | ok (coords : List Point)
  | raises
deriving DecidableEq, Repr

/-- The body of the `try` block of `update_progress`: routes are processed in
order; the first raising route aborts the loop (the exception is caught by the
`except` at function level, so the accumulated traveled set is kept and the
function returns normally). -/
def runBatch (segs : List SegRecord) (tolSq : ℚ) (traveled : Finset String) :
    List RouteAttempt → Finset String
  | [] => traveled
  | .ok coords :: rest => runBatch segs tolSq (matchRoute segs tolSq coords traveled) rest
  | .raises :: _ => traveled

/-! ### Snapshot persistence (`_save_to_cache`, `_load_from_cache`) -/

/-- The serialization format of the bytes in the snapshot file.
`pickle.dumps` emits binary pickle data; `yaml.load` only succeeds on YAML
documents — Python pickle output (protocol ≥ 2, leading byte `0x80`) is not
acceptable YAML, so `yaml.load` raises on it. -/
inductive Codec where
  | pickle
  | yaml
deriving DecidableEq, Repr

/-- The snapshot artifact `waco_streets_cache.pkl`: the three persisted fields
together with the format they were encoded in. -/
structure Snapshot where
  codec : Codec
  streets : Option (List Street)
  segments : Option (List SegRecord)
  traveled : Finset String
deriving DecidableEq

/-- Embeds `_save_to_cache` (lines 132-142): `pickle.dumps` of the dict holding
`streets_gdf`, `segments_gdf` and `traveled_segments`. -/
def saveToCache (st : EngineState) : Snapshot :=
  { codec := .pickle
    streets := st.streets_gdf
    segments := st.segments_gdf
    traveled := st.traveled_segments }

/-- Embeds `yaml.load(bytes, Loader=yaml.FullLoader)` applied to the snapshot file
(line 58): succeeds only when the bytes are YAML; on pickle bytes it raises,
modelled as `none`. -/
def yamlLoad (snap : Snapshot) :
    Option (Option (List Street) × Option (List SegRecord) × Finset String) :=
  match snap.codec with
  | .yaml => some (snap.streets, snap.segments, snap.traveled)
  | .pickle => none

/-- Embeds `_load_from_cache` (lines 55-76) up to its `except`: parse the file with
`yaml.load`, extract the three fields, and raise `ValueError` when streets or
segments are `None` or empty.  `none` means an exception was raised (and is
then caught at line 74, triggering the fallback). -/
def loadFromCache (snap : Snapshot) :
    Option (List Street × List SegRecord × Finset String) :=
  match yamlLoad snap with
  | none => none
  | some (strs?, segs?, trav) =>
      match strs?, segs? with
      | some strs, some segs =>
          if strs.isEmpty ∨ segs.isEmpty then none else some (strs, segs, trav)
      | _, _ => none

/-! ### Segment construction (`_create_segments`, `_process_linestring`) -/

/-- Embeds `_process_linestring(linestring, street_id)` (lines 120-130): one
`SegRecord` per consecutive coordinate pair, `segment_id` built from the
street id and the index of the pair within this linestring. -/
def processLinestring (coords : List Point) (street_id : String) : List SegRecord :=
  (List.range (coords.length - 1)).map fun i =>
    { p := coords.getD i (0, 0)
      q := coords.getD (i + 1) (0, 0)
      street_id := street_id
      segment_id := street_id ++ "_" ++ toString i }

/-- Embeds `_create_segments` (lines 107-118): segment every street; a
`MultiLineString` street is segmented part by part with the same street id;
unsupported geometries are skipped with a warning. -/
def createSegments (streets : List Street) : List SegRecord :=
  streets.flatMap fun row =>
    match row.geometry with
    | .lineString coords => processLinestring coords row.street_id
    | .multiLineString parts =>
        parts.flatMap fun line => processLinestring line row.street_id
    | .unsupported => []

/-- The vertex sequence obtained by concatenating two-point segment geometries
in order: the start point of the first segment followed by the end
point of every segment. -/
def reconstruct : List SegRecord → List Point
  | [] => []
  | s :: rest => s.p :: (s :: rest).map (fun r => r.q)

/-! ### Source loading (`_process_and_cache_data`, `load_data`) -/

/-- The raw feature collection read by `gpd.read_file`: its rows, and whether
the frame has a `street_id` column. -/
structure RawSource where
  hasStreetIdColumn : Bool
  rows : List Street
deriving DecidableEq

/-- The result of a successful `load_data`: the three fields it assigns. -/
structure LoadedData where
  streets : List Street
  segments : List SegRecord
  traveled : Finset String
deriving DecidableEq

/-- The street-frame pipeline of `_process_and_cache_data` (lines 87-92):
missing street ids are assigned from the row index, then rows are sorted by
street id (`set_index("street_id").sort_index()`).  The WGS84 reprojection
has no effect on the in-memory model (the source is already stored in that
reference). -/
def buildStreets (raw : RawSource) : List Street :=
  let withIds :=
    if raw.hasStreetIdColumn then raw.rows
    else raw.rows.enum.map fun e => { e.2 with street_id := toString e.1 }
  withIds.mergeSort fun a b => decide (a.street_id ≤ b.street_id)

/-- Embeds `_process_and_cache_data` (lines 78-105): `gpd.read_file` raising
(missing or unparsable source) is the `none` source; an empty frame raises
`ValueError`; otherwise the sorted street frame and its segments are
assigned.  The caching write has no effect on the in-memory model. -/
def processAndCacheData (src : Option RawSource) :
    Except String (List Street × List SegRecord) :=
  match src with
  | none => .error "read failure"
  | some raw =>
      if raw.rows.isEmpty then .error "empty source"
      else .ok (buildStreets raw, createSegments (buildStreets raw))

/-- The traveled set after `_load_from_cache` fell into its `except` branch:
the assignments at lines 59-61 run before the validation, so when parsing
succeeded but validation raised, the loaded traveled set has already replaced
the initial one; when `yaml.load` itself raised, the initial set is kept. -/
def travAfterCacheFailure (init : Finset String) (snap : Snapshot) : Finset String :=
  match yamlLoad snap with
  | some (_, _, trav) => trav
  | none => init

/-- Embeds `load_data` (lines 45-53) together with the internal
fallback: use the cache when the cache file exists and loads cleanly,
otherwise rebuild from the source via `_process_and_cache_data`; `init` is the
traveled set held before loading (empty in `__init__`). -/
def loadData (init : Finset String) (cache : Option Snapshot)
    (src : Option RawSource) : Except String LoadedData :=
  match cache with
  | none => (processAndCacheData src).map fun p => ⟨p.1, p.2, init⟩
  | some snap =>
      match loadFromCache snap with
      | some (strs, segs, trav) => .ok ⟨strs, segs, trav⟩
      | none =>
          (processAndCacheData src).map fun p =>
            ⟨p.1, p.2, travAfterCacheFailure init snap⟩

/-! ### Read-side operations -/

/-- The summary dict returned by `calculate_progress`. -/
structure Progress where
  coverage_percentage : ℚ
  total_streets : ℕ
  traveled_streets : ℕ
  total_segments : ℕ
  traveled_segments : ℕ
deriving DecidableEq, Repr

/-- Embeds `calculate_progress` (lines 200-234).  (`load_data` assigns `streets_gdf`
and `segments_gdf` together, so `streets_gdf` is present whenever
`segments_gdf` is; `getD []` covers the unreachable mismatch.) -/
def calculateProgress (st : EngineState) : Progress :=
  match st.segments_gdf with
  | none =>
      { coverage_percentage := 0
        total_streets := 0
        traveled_streets := 0
        total_segments := 0
        traveled_segments := 0 }
  | some segs =>
      let total_segments := segs.length
      let traveled_segments := st.traveled_segments.card
      let total_streets := (st.streets_gdf.getD []).length
      let traveled_streets :=
        ((segs.filter fun s => decide (s.segment_id ∈ st.traveled_segments)).map
          (fun s => s.street_id)).toFinset.card
      let coverage_percentage : ℚ :=
        if 0 < total_segments
        then ((traveled_segments : ℚ) / (total_segments : ℚ)) * 100
        else 0
      { coverage_percentage := coverage_percentage
        total_streets := total_streets
        traveled_streets := traveled_streets
        total_segments := total_segments
        traveled_segments := traveled_segments }

/-- One feature of the FeatureCollection built by `get_progress_geojson`. -/
structure GeoFeature where
  geometry : Point × Point
  segment_id : String
  street_id : String
  traveled : Bool
  color : String
deriving DecidableEq, Repr

/-- Embeds `get_progress_geojson(waco_boundary)` (lines 241-279).  The boundary file
read is abstracted as `limits`: `none` when `waco_boundary` is `"none"`/empty,
otherwise the `intersects`-with-the-boundary test.  Returns the feature list
and the state after the call: line 254 assigns the `traveled` column of
`segments_gdf` in place, so the returned state carries the updated rows. -/
def getProgressGeojson (limits : Option (SegRecord → Bool)) (st : EngineState) :
    List GeoFeature × EngineState :=
  match st.segments_gdf with
  | none => ([], st)
  | some segs =>
      let segs2 := segs.map fun s =>
        { s with traveled := some (decide (s.segment_id ∈ st.traveled_segments)) }
      let filtered :=
        match limits with
        | some inLimits => segs2.filter inLimits
        | none => segs2
      let features := filtered.map fun s =>
        { geometry := (s.p, s.q)
          segment_id := s.segment_id
          street_id := s.street_id
          traveled := s.traveled.getD false
          color := if s.traveled.getD false then "#00ff00" else "#ff0000" }
      (features, { st with segments_gdf := some segs2 })

/-- Embeds `get_untraveled_streets(waco_boundary)` (lines 281-310), with the boundary
abstracted as in `getProgressGeojson`.  Pure read: the source assigns no
`self.` attribute, so the state after the call is the input state. -/
def getUntraveledStreets (limits : Option (Street → Bool)) (st : EngineState) :
    List Street × EngineState :=
  match st.streets_gdf, st.segments_gdf with
  | some strs, some segs =>
      let traveledStreets :=
        (segs.filter fun s => decide (s.segment_id ∈ st.traveled_segments)).map
          (fun s => s.street_id)
      let untraveled := strs.filter fun r => !(traveledStreets.contains r.street_id)
      let result :=
        match limits with
        | some inLimits => untraveled.filter inLimits
        | none => untraveled
      (result, st)
  | _, _ => ([], st)

/-! ### Concrete instances used in counterexamples and witnesses -/

/-- A segment lying at distance `1/200000` (half the snap distance) above the
x-axis: within tolerance of `nearMissTrip`, but with a bounding box disjoint
from the bounding box of that trip. -/
def nearMissSeg : SegRecord :=
  { p := (0, 1 / 200000), q := (1, 1 / 200000), street_id := "A", segment_id := "A_0" }

/-- The unit trip along the x-axis. -/
def nearMissTrip : List Point := [(0, 0), (1, 0)]

/-- A segment on the x-axis from the origin to `(1, 0)`. -/
def unitSeg : SegRecord :=
  { p := (0, 0), q := (1, 0), street_id := "B", segment_id := "B_0" }

/-- A trip lying exactly on `unitSeg`. -/
def unitTrip : List Point := [(0, 0), (1, 0)]

/-- The route feature carrying `unitTrip`. -/
def unitFeature : Feature := ⟨.lineString unitTrip⟩

/-- A second route feature, away from `unitSeg`. -/
def farFeature : Feature := ⟨.lineString [(5, 5), (6, 5)]⟩

/-- An initialized engine holding the street `"B"` and its single segment. -/
def demoState : EngineState :=
  { streets_gdf := some [⟨"B", .lineString [(0, 0), (1, 0)]⟩]
    segments_gdf := some [unitSeg]
    traveled_segments := ∅
    snap_distance_sq := snapDistanceSq }

/-- `demoState` after its one segment was marked traveled. -/
def coveredState : EngineState :=
  { demoState with traveled_segments := {"B_0"} }

/-- A street whose geometry has two disconnected one-edge parts. -/
def twoPartStreet : Street :=
  ⟨"A", .multiLineString [[(0, 0), (1, 0)], [(5, 5), (6, 5)]]⟩

/-- A three-vertex polyline. -/
def threeVertexLine : List Point := [(0, 0), (1, 0), (2, 0)]

/-- A nonempty raw source with a street-id column. -/
def demoSource : RawSource :=
  ⟨true, [⟨"B", .lineString [(0, 0), (1, 0)]⟩]⟩

/-- The engine state right after `__init__`: nothing loaded yet. -/
def freshState : EngineState :=
  { streets_gdf := none
    segments_gdf := none
    traveled_segments := ∅
    snap_distance_sq := snapDistanceSq }

/-! ### Helper lemmas -/

attribute [local semireducible] Rat.mul Rat.add Rat.inv Rat.sub Rat.ofScientific

/-- The insert-fold of the matching loop is the union with the filtered id set. -/
theorem matchRoute_eq_union (segs : List SegRecord) (tolSq : ℚ) (coords : List Point)
    (traveled : Finset String) :
    matchRoute segs tolSq coords traveled = traveled ∪ routeSet segs tolSq coords := by
  unfold matchRoute routeSet
  generalize segs.filter (fun s => (boundsOf coords).intersects (segBounds s)) = l
  induction l generalizing traveled with
  | nil => simp
  | cons s t ih =>
      by_cases h : sqDistLineSeg coords s.p s.q ≤ tolSq
      · simp only [List.foldl_cons, if_pos h, ih, List.filter_cons,
          decide_eq_true_eq, h, if_true, List.map_cons, List.toFinset_cons,
          Finset.union_insert, Finset.insert_union]
      · simp only [List.foldl_cons, if_neg h, ih, List.filter_cons,
          decide_eq_true_eq, h, if_false, List.map_cons, List.toFinset_cons]

/-- Membership in the id set contributed by one route. -/
theorem mem_routeSet (segs : List SegRecord) (tolSq : ℚ) (coords : List Point)
    (sid : String) :
    sid ∈ routeSet segs tolSq coords ↔
      ∃ s ∈ segs, (boundsOf coords).intersects (segBounds s) = true ∧
        sqDistLineSeg coords s.p s.q ≤ tolSq ∧ s.segment_id = sid := by
  simp only [routeSet, List.mem_toFinset, List.mem_map, List.mem_filter,
    decide_eq_true_eq]
  constructor
  · rintro ⟨s, ⟨⟨hs, hbox⟩, hdist⟩, hid⟩
    exact ⟨s, hs, hbox, hdist, hid⟩
  · rintro ⟨s, hs, hbox, hdist, hid⟩
    exact ⟨s, ⟨⟨hs, hbox⟩, hdist⟩, hid⟩

/-- Sup of a list of traveled-id sets, cons step. -/
theorem listSup_cons (S : Finset String) (l : List (Finset String)) :
    (↑(S :: l) : Multiset (Finset String)).sup = S ∪ (↑l : Multiset (Finset String)).sup := by
  rw [← Multiset.cons_coe, Multiset.sup_cons, Finset.sup_eq_union]

/-- The route loop of `update_progress` accumulates the union of the per-route
match sets. -/
theorem foldl_routes_eq (segs : List SegRecord) (tolSq : ℚ) (l : List Feature)
    (acc : Finset String) :
    l.foldl
        (fun acc f =>
          match f.geometry with
          | .lineString coords => matchRoute segs tolSq coords acc
          | _ => acc)
        acc
      = acc ∪ (↑(l.map (featSet segs tolSq)) : Multiset (Finset String)).sup := by
  induction l generalizing acc with
  | nil => simp
  | cons f t ih =>
      rcases hf : f.geometry with coords | parts | _
      · have hstep :
            (match f.geometry with
              | .lineString coords => matchRoute segs tolSq coords acc
              | _ => acc) = matchRoute segs tolSq coords acc := by rw [hf]
        have hfeat : featSet segs tolSq f = routeSet segs tolSq coords := by
          simp [featSet, hf]
        rw [List.foldl_cons, hstep, ih, matchRoute_eq_union, List.map_cons,
          listSup_cons, hfeat, Finset.union_assoc]
      · have hstep :
            (match f.geometry with
              | .lineString coords => matchRoute segs tolSq coords acc
              | _ => acc) = acc := by rw [hf]
        have hfeat : featSet segs tolSq f = ∅ := by simp [featSet, hf]
        rw [List.foldl_cons, hstep, ih, List.map_cons, listSup_cons, hfeat,
          Finset.empty_union]
      · have hstep :
            (match f.geometry with
              | .lineString coords => matchRoute segs tolSq coords acc
              | _ => acc) = acc := by rw [hf]
        have hfeat : featSet segs tolSq f = ∅ := by simp [featSet, hf]
        rw [List.foldl_cons, hstep, ih, List.map_cons, listSup_cons, hfeat,
          Finset.empty_union]

/-- The batch contribution of `update_progress`: union of the match sets of
the valid features, independent of their order (a multiset sup). -/
def batchSet (segs : List SegRecord) (tolSq : ℚ) (routes : List Feature) :
    Finset String :=
  (↑((routes.filter validFeature).map (featSet segs tolSq)) :
    Multiset (Finset String)).sup

/-- With a loaded segment collection, `update_progress` only unions the batch
contribution into the traveled set. -/
theorem updateProgress_eq (st : EngineState) (segs : List SegRecord)
    (h : st.segments_gdf = some segs) (routes : List Feature) :
    updateProgress st routes
      = { st with traveled_segments :=
            st.traveled_segments ∪ batchSet segs st.snap_distance_sq routes } := by
  obtain ⟨a, b, c, d⟩ := st
  have hb : b = some segs := h
  subst hb
  show (if routes.isEmpty then (⟨a, some segs, c, d⟩ : EngineState)
      else
        if (routes.filter validFeature).isEmpty then (⟨a, some segs, c, d⟩ : EngineState)
        else
          ⟨a, some segs,
            (routes.filter validFeature).foldl
              (fun acc f =>
                match f.geometry with
                | .lineString coords => matchRoute segs d coords acc
                | _ => acc)
              c, d⟩)
    = ⟨a, some segs, c ∪ batchSet segs d routes, d⟩
  by_cases hempty : routes.isEmpty
  · rw [if_pos hempty, List.isEmpty_iff.mp hempty]
    simp [batchSet]
  · rw [if_neg hempty]
    by_cases hvalid : (routes.filter validFeature).isEmpty
    · rw [if_pos hvalid]
      simp [batchSet, List.isEmpty_iff.mp hvalid]
    · rw [if_neg hvalid, foldl_routes_eq]
      rfl

/-- Without a loaded segment collection, `update_progress` returns unchanged. -/
theorem updateProgress_none (st : EngineState) (h : st.segments_gdf = none)
    (routes : List Feature) : updateProgress st routes = st := by
  unfold updateProgress
  rw [h]

/-- Index form of the p-field of the segments of one linestring. -/
theorem processLinestring_getElem_p (coords : List Point) (sid : String) (i : ℕ)
    (hi : i < (processLinestring coords sid).length) :
    ((processLinestring coords sid)[i]).p = coords.getD i (0, 0) := by
  simp [processLinestring]

/-- The end points of the segments of one linestring are the tail of its
vertex list. -/
theorem processLinestring_map_q (coords : List Point) (sid : String) :
    (processLinestring coords sid).map (fun s => s.q) = coords.tail := by
  apply List.ext_getElem
  · simp [processLinestring]
  · intro i h1 h2
    simp only [processLinestring, List.getElem_map, List.getElem_range]
    have hib : i + 1 < coords.length := by
      have := h2
      simp only [List.length_tail] at this
      omega
    rw [List.getD_eq_getElem _ _ hib, List.getElem_tail coords]

/-! ### Claim theorems -/

/-- C1, claim as stated, refuted: the segment `nearMissSeg` is within the snap
tolerance of the trip `nearMissTrip` (squared distance `1/4·10⁻¹⁰` is at most
the squared tolerance `10⁻¹⁰`), yet matching does not add its id, because the
bounding boxes of the trip and of the segment are disjoint and the rtree
candidate query therefore never returns it. -/
theorem C1_counterexample :
    sqDistLineSeg nearMissTrip nearMissSeg.p nearMissSeg.q ≤ snapDistanceSq ∧
      nearMissSeg.segment_id ∉ matchRoute [nearMissSeg] snapDistanceSq nearMissTrip ∅ := by
  decide

/-- C1, amended: a segment id is added by the matching loop exactly when the
id was already present, or some segment of the store carries the id, its
bounding box intersects the bounding box of the trip, and its true geometric
distance to the trip is at most the tolerance.  Within-tolerance segments
whose bounding box misses the trip box are silently skipped. -/
theorem C1_match_characterization (segs : List SegRecord) (tolSq : ℚ)
    (coords : List Point) (traveled : Finset String) (sid : String) :
    sid ∈ matchRoute segs tolSq coords traveled ↔
      sid ∈ traveled ∨
        ∃ s ∈ segs, (boundsOf coords).intersects (segBounds s) = true ∧
          sqDistLineSeg coords s.p s.q ≤ tolSq ∧ s.segment_id = sid := by
  rw [matchRoute_eq_union, Finset.mem_union, mem_routeSet]

/-- C2: submitting a valid trip twice equals submitting it once, and the final
state is invariant under permutation of the batch. -/
theorem C2_idempotent_commutative (st : EngineState) (g : Feature)
    (coords : List Point) (_hg : g.geometry = .lineString coords)
    (_hlen : 2 ≤ coords.length) :
    updateProgress (updateProgress st [g]) [g] = updateProgress st [g] ∧
      ∀ l₁ l₂ : List Feature, l₁.Perm l₂ →
        updateProgress st l₁ = updateProgress st l₂ := by
  obtain ⟨a, b, c, d⟩ := st
  cases b with
  | none =>
      refine ⟨?_, ?_⟩
      · rw [updateProgress_none _ rfl, updateProgress_none _ rfl]
      · intro l₁ l₂ _
        rw [updateProgress_none _ rfl, updateProgress_none _ rfl]
  | some segs =>
      refine ⟨?_, ?_⟩
      · have h1 : updateProgress (⟨a, some segs, c, d⟩ : EngineState) [g]
            = ⟨a, some segs, c ∪ batchSet segs d [g], d⟩ := by
          rw [updateProgress_eq _ segs rfl [g]]
        have h2 : updateProgress (⟨a, some segs, c ∪ batchSet segs d [g], d⟩ : EngineState) [g]
            = ⟨a, some segs, (c ∪ batchSet segs d [g]) ∪ batchSet segs d [g], d⟩ := by
          rw [updateProgress_eq _ segs rfl [g]]
        rw [h1, h2, Finset.union_assoc, Finset.union_self]
      · intro l₁ l₂ hperm
        rw [updateProgress_eq _ segs rfl l₁, updateProgress_eq _ segs rfl l₂]
        have hbatch : batchSet segs d l₁ = batchSet segs d l₂ := by
          unfold batchSet
          congr 1
          exact Multiset.coe_eq_coe.mpr ((hperm.filter validFeature).map (featSet segs d))
        rw [hbatch]

/-- Witness for C2 at the one-segment demo engine and the on-segment trip. -/
theorem C2_witness :
    unitFeature.geometry = .lineString unitTrip ∧ 2 ≤ unitTrip.length ∧
      (updateProgress (updateProgress demoState [unitFeature]) [unitFeature]
          = updateProgress demoState [unitFeature] ∧
        ∀ l₁ l₂ : List Feature, l₁.Perm l₂ →
          updateProgress demoState l₁ = updateProgress demoState l₂) :=
  ⟨rfl, by decide, C2_idempotent_commutative demoState unitFeature unitTrip rfl (by decide)⟩

/-- C3, claim as stated, refuted: in the batch `[raising route, good route]`
the good route lies on top of `unitSeg` and would match it (second conjunct),
yet the batch run adds nothing, because the raising first route aborts the
loop. -/
theorem C3_counterexample :
    runBatch [unitSeg] snapDistanceSq ∅ [.raises, .ok unitTrip] = ∅ ∧
      unitSeg.segment_id ∈ matchRoute [unitSeg] snapDistanceSq unitTrip ∅ := by
  decide

/-- C3, amended: an error while matching one trip is caught (the batch run is
a total function returning a state, never propagating the error) and the
segments matched before the failure are kept, but the routes after the first
failing one are not processed: the batch result is exactly the result of the
prefix before the failure. -/
theorem C3_batch_abort (segs : List SegRecord) (tolSq : ℚ)
    (traveled : Finset String) (pre post : List RouteAttempt) :
    runBatch segs tolSq traveled (pre ++ .raises :: post)
      = runBatch segs tolSq traveled pre := by
  induction pre generalizing traveled with
  | nil => rfl
  | cons r t ih =>
      cases r with
      | ok coords => simpa [runBatch] using ih _
      | raises => rfl

/-- C4: the persistence round trip always fails — the snapshot is written with
`pickle.dumps` but read back with `yaml.load`, which cannot parse pickle
bytes, so loading the saved snapshot never returns the saved data (it raises,
which the caller turns into a full rebuild). -/
theorem C4_save_load_mismatch (st : EngineState) :
    loadFromCache (saveToCache st) = none := rfl

/-- C5: segmenting a linestring with `N ≥ 2` vertices yields exactly `N - 1`
segments, and concatenating their two-point geometries in order reproduces the
original vertex sequence exactly. -/
theorem C5_segmentation (coords : List Point) (sid : String)
    (h : 2 ≤ coords.length) :
    (processLinestring coords sid).length = coords.length - 1 ∧
      reconstruct (processLinestring coords sid) = coords := by
  refine ⟨by simp [processLinestring], ?_⟩
  obtain ⟨c0, ctail, rfl⟩ : ∃ c0 ctail, coords = c0 :: ctail := by
    cases coords with
    | nil => exact absurd h (by simp)
    | cons x t => exact ⟨x, t, rfl⟩
  cases hl : processLinestring (c0 :: ctail) sid with
  | nil =>
      have hlen := congrArg List.length hl
      simp only [processLinestring, List.length_map, List.length_range,
        List.length_cons, List.length_nil] at hlen
      simp only [List.length_cons] at h
      omega
  | cons s rest =>
      have hb : 0 < (processLinestring (c0 :: ctail) sid).length := by
        rw [hl]; simp
      have hp := processLinestring_getElem_p (c0 :: ctail) sid 0 hb
      rw [List.getElem_of_eq hl] at hp
      simp only [List.getElem_cons_zero, List.getD_cons_zero] at hp
      show s.p :: (s :: rest).map (fun r => r.q) = c0 :: ctail
      rw [← hl, processLinestring_map_q, hp]
      rfl

/-- Witness for C5 at a three-vertex polyline. -/
theorem C5_witness :
    2 ≤ threeVertexLine.length ∧
      ((processLinestring threeVertexLine "A").length = threeVertexLine.length - 1 ∧
        reconstruct (processLinestring threeVertexLine "A") = threeVertexLine) :=
  ⟨by decide, C5_segmentation threeVertexLine "A" (by decide)⟩

/-- C6, claim as stated, refuted: the two parts of `twoPartStreet` produce
segments `A_0` and `A_0` — the part index is not folded into the id, so the
ids of the store are not pairwise distinct. -/
theorem C6_counterexample :
    ((createSegments [twoPartStreet]).map (fun s => s.segment_id)) = ["A_0", "A_0"] ∧
      ¬ ((createSegments [twoPartStreet]).map (fun s => s.segment_id)).Nodup := by
  decide

/-- C6, amended: a multi-part street is segmented part by part, but the
segment id only encodes the index within the part, not the part index: the
second part of a two-part street repeats exactly the id sequence of the first
part whenever the parts have the same number of vertices. -/
theorem C6_ids_ignore_part (sid : String) (cs₁ cs₂ : List Point)
    (h : cs₁.length = cs₂.length) :
    (createSegments [⟨sid, .multiLineString [cs₁, cs₂]⟩]).map (fun s => s.segment_id)
      = (processLinestring cs₁ sid).map (fun s => s.segment_id)
        ++ (processLinestring cs₁ sid).map (fun s => s.segment_id) := by
  simp only [createSegments, List.flatMap_cons, List.flatMap_nil, List.append_nil,
    List.map_append, List.append_cancel_left_eq]
  simp [processLinestring, h]

/-- Witness for C6 on the two equal-length parts of `twoPartStreet`. -/
theorem C6_ids_ignore_part_witness :
    ([((0 : ℚ), (0 : ℚ)), (1, 0)] : List Point).length
        = ([((5 : ℚ), (5 : ℚ)), (6, 5)] : List Point).length ∧
      (createSegments [⟨"A", .multiLineString [[((0 : ℚ), (0 : ℚ)), (1, 0)],
            [((5 : ℚ), (5 : ℚ)), (6, 5)]]⟩]).map (fun s => s.segment_id)
        = (processLinestring [((0 : ℚ), (0 : ℚ)), (1, 0)] "A").map (fun s => s.segment_id)
          ++ (processLinestring [((0 : ℚ), (0 : ℚ)), (1, 0)] "A").map (fun s => s.segment_id) :=
  ⟨rfl, C6_ids_ignore_part "A" [(0, 0), (1, 0)] [(5, 5), (6, 5)] rfl⟩

/-- C7: the coverage summary returns the segment count, the traveled-set size,
the number of distinct street ids owning at least one traveled segment, and
the percentage `traveled / total * 100`, which is `0` when there are no
segments. -/
theorem C7_calculate (st : EngineState) (segs : List SegRecord)
    (h : st.segments_gdf = some segs) :
    (calculateProgress st).total_segments = segs.length ∧
      (calculateProgress st).traveled_segments = st.traveled_segments.card ∧
      (calculateProgress st).traveled_streets
        = ((segs.map (fun s => s.street_id)).toFinset.filter
            (fun sid => segs.any
              (fun s => decide (s.street_id = sid ∧ s.segment_id ∈ st.traveled_segments)))).card ∧
      (calculateProgress st).coverage_percentage
        = ((st.traveled_segments.card : ℚ) / (segs.length : ℚ)) * 100 ∧
      (segs.length = 0 → (calculateProgress st).coverage_percentage = 0) := by
  obtain ⟨a, b, c, d⟩ := st
  have hb : b = some segs := h
  subst hb
  refine ⟨rfl, rfl, ?_, ?_, ?_⟩
  · show ((segs.filter fun s => decide (s.segment_id ∈ c)).map
        (fun s => s.street_id)).toFinset.card = _
    congr 1
    ext sid
    simp only [List.mem_toFinset, List.mem_map, List.mem_filter, Finset.mem_filter,
      List.any_eq_true, decide_eq_true_eq]
    constructor
    · rintro ⟨s, ⟨hs, htrav⟩, hid⟩
      exact ⟨⟨s, hs, hid⟩, s, hs, hid, htrav⟩
    · rintro ⟨-, s, hs, hid, htrav⟩
      exact ⟨s, ⟨hs, htrav⟩, hid⟩
  · show (if 0 < segs.length then ((c.card : ℚ) / (segs.length : ℚ)) * 100 else 0) = _
    by_cases h0 : 0 < segs.length
    · rw [if_pos h0]
    · rw [if_neg h0]
      have hz : segs.length = 0 := by omega
      rw [hz]
      simp
  · intro h0
    show (if 0 < segs.length then ((c.card : ℚ) / (segs.length : ℚ)) * 100 else 0) = 0
    rw [h0]
    simp

/-- Witness for C7 at the demo engine with its one segment traveled. -/
theorem C7_witness :
    coveredState.segments_gdf = some [unitSeg] ∧
      (calculateProgress coveredState).coverage_percentage
        = ((coveredState.traveled_segments.card : ℚ) / (([unitSeg].length : ℕ) : ℚ)) * 100 :=
  ⟨rfl, (C7_calculate coveredState [unitSeg] rfl).2.2.2.1⟩

/-- C8: when the cached snapshot fails to load (parse error or empty data),
initialization falls back to the full rebuild from the source instead of
failing, and a load error can only come from a missing/unparsable source or a
source with zero features. -/
theorem C8_fallback (init : Finset String) (snap : Snapshot)
    (cache : Option Snapshot) (src : Option RawSource)
    (hbad : loadFromCache snap = none) :
    loadData init (some snap) src
        = (processAndCacheData src).map
            (fun p => ⟨p.1, p.2, travAfterCacheFailure init snap⟩) ∧
      ∀ e, loadData init cache src = .error e →
        src = none ∨ ∃ raw, src = some raw ∧ raw.rows = [] := by
  constructor
  · have hstep : loadData init (some snap) src
        = match loadFromCache snap with
          | some (strs, segs, trav) => Except.ok (⟨strs, segs, trav⟩ : LoadedData)
          | none =>
              (processAndCacheData src).map fun p =>
                (⟨p.1, p.2, travAfterCacheFailure init snap⟩ : LoadedData) := rfl
    rw [hstep, hbad]
  · intro e he
    have hproc : ∀ e2, processAndCacheData src = .error e2 →
        src = none ∨ ∃ raw, src = some raw ∧ raw.rows = [] := by
      intro e2 hp
      cases src with
      | none => exact Or.inl rfl
      | some raw =>
          right
          refine ⟨raw, rfl, ?_⟩
          by_cases hr : raw.rows.isEmpty
          · exact List.isEmpty_iff.mp hr
          · exfalso
            have hp2 : (if raw.rows.isEmpty then
                  (Except.error "empty source" :
                    Except String (List Street × List SegRecord))
                else .ok (buildStreets raw, createSegments (buildStreets raw)))
                = Except.error e2 := hp
            rw [if_neg hr] at hp2
            exact Except.noConfusion hp2
    cases cache with
    | none =>
        have he2 : (processAndCacheData src).map
            (fun p : List Street × List SegRecord =>
              (⟨p.1, p.2, init⟩ : LoadedData)) = .error e := he
        cases hps : processAndCacheData src with
        | error e2 => exact hproc e2 hps
        | ok v =>
            rw [hps] at he2
            exact absurd he2 (by simp [Except.map])
    | some snap2 =>
        have he2 : (match loadFromCache snap2 with
            | some (strs, segs, trav) => Except.ok (⟨strs, segs, trav⟩ : LoadedData)
            | none =>
                (processAndCacheData src).map
                  fun p : List Street × List SegRecord =>
                    (⟨p.1, p.2, travAfterCacheFailure init snap2⟩ : LoadedData))
            = .error e := he
        cases hlc : loadFromCache snap2 with
        | some v =>
            obtain ⟨v1, v2, v3⟩ := v
            rw [hlc] at he2
            exact Except.noConfusion he2
        | none =>
            rw [hlc] at he2
            cases hps : processAndCacheData src with
            | error e2 => exact hproc e2 hps
            | ok v =>
                rw [hps] at he2
                exact absurd he2 (by simp [Except.map])

/-- Witness for C8: loading the pickled snapshot of the demo engine falls back
to the rebuild from the demo source. -/
theorem C8_witness :
    loadFromCache (saveToCache demoState) = none ∧
      loadData ∅ (some (saveToCache demoState)) (some demoSource)
        = (processAndCacheData (some demoSource)).map
            (fun p => ⟨p.1, p.2, travAfterCacheFailure ∅ (saveToCache demoState)⟩) :=
  ⟨rfl, (C8_fallback ∅ (saveToCache demoState) none (some demoSource) rfl).1⟩

/-- C9, claim as stated, refuted: exporting the progress GeoJSON mutates the
segment collection (it writes the `traveled` column in place), so the state
after the call differs from the state after construction. -/
theorem C9_counterexample :
    (getProgressGeojson none demoState).2.segments_gdf ≠ demoState.segments_gdf := by
  decide

/-- C9, amended: the read-only views leave the street collection, the traveled
set and the segment geometries/ids unchanged; `get_untraveled_streets` leaves
the whole state unchanged; but `get_progress_geojson` rewrites the segment
rows in place, setting each `traveled` column from the current traveled set. -/
theorem C9_frame (limits : Option (SegRecord → Bool))
    (limitsStreets : Option (Street → Bool)) (st : EngineState)
    (segs : List SegRecord) (h : st.segments_gdf = some segs) :
    (getProgressGeojson limits st).2.streets_gdf = st.streets_gdf ∧
      (getProgressGeojson limits st).2.traveled_segments = st.traveled_segments ∧
      (getProgressGeojson limits st).2.segments_gdf
        = some (segs.map (fun s =>
            { s with traveled := some (decide (s.segment_id ∈ st.traveled_segments)) })) ∧
      (segs.map (fun s =>
          { s with traveled := some (decide (s.segment_id ∈ st.traveled_segments)) })).map
          (fun s => (s.p, s.q, s.street_id, s.segment_id))
        = segs.map (fun s => (s.p, s.q, s.street_id, s.segment_id)) ∧
      (getUntraveledStreets limitsStreets st).2 = st := by
  obtain ⟨a, b, c, d⟩ := st
  have hb : b = some segs := h
  subst hb
  refine ⟨rfl, rfl, rfl, ?_, ?_⟩
  · rw [List.map_map]
    rfl
  · cases a with
    | none => rfl
    | some strs => rfl

/-- Witness for C9 at the demo engine. -/
theorem C9_witness :
    demoState.segments_gdf = some [unitSeg] ∧
      (getProgressGeojson none demoState).2.segments_gdf
        = some ([unitSeg].map (fun s =>
            { s with traveled := some (decide (s.segment_id ∈ demoState.traveled_segments)) })) :=
  ⟨rfl, (C9_frame none none demoState [unitSeg] rfl).2.2.1⟩

/-- C10: on an engine whose segment collection was never loaded,
`calculate_progress` returns the all-zero summary and `update_progress`
returns without touching any state. -/
theorem C10_uninitialized (st : EngineState) (routes : List Feature)
    (h : st.segments_gdf = none) :
    calculateProgress st
        = { coverage_percentage := 0, total_streets := 0, traveled_streets := 0,
            total_segments := 0, traveled_segments := 0 } ∧
      updateProgress st routes = st := by
  refine ⟨?_, updateProgress_none st h routes⟩
  unfold calculateProgress
  rw [h]

/-- Witness for C10 at the just-constructed engine. -/
theorem C10_witness :
    freshState.segments_gdf = none ∧
      (calculateProgress freshState
          = { coverage_percentage := 0, total_streets := 0, traveled_streets := 0,
              total_segments := 0, traveled_segments := 0 } ∧
        updateProgress freshState [unitFeature] = freshState) :=
  ⟨rfl, C10_uninitialized freshState [unitFeature] rfl⟩

end EveryStreet
